import Mathlib

/-!
Shallow embedding of the life-expectancy web application (src/api.py).

The embedding covers the text-analysis functions (detect_birth_year,
detect_age, estimate_age, detect_location), the life-expectancy resolver
(get_life_expectancy), the remaining-life calculator
(compute_remaining_life) and the "predict" branch of the HTTP handler
(index, lines 187-213), together with the module-level dataset values
(AVAILABLE_LOCATIONS, DEFAULT_YEAR).

Modelling conventions:
* Python strings are Lean String values; scanning works on String.data.
* str.lower is modelled on the ASCII range (the only range the program
  relies on); accents and other characters are left unchanged.
* Python re.findall for the two fixed patterns of the source is modelled
  by direct left-to-right non-overlapping scanners (findYears, findAges).
  For the pattern (\d{1,3})\s*ans, greedy matching with backtracking
  degenerates to: the maximal digit run at the position must have length
  between 1 and 3 (taking fewer digits always leaves a digit where the
  literal a is required, so backtracking never succeeds), then optional
  whitespace, then the literal ans.
* datetime.now().year is passed explicitly as a parameter cy.
* The pandas dataframe becomes a DataFrame structure: a list of column
  names and a list of rows; a row carries the three typed columns the
  code filters on plus a lookup function for the numeric columns
  (float(row[col]) becomes Row.get col : Rat).
* Python floats are modelled as rationals; int(x) on a float is
  truncation toward zero (intTrunc).
* A raised KeyError is modelled by Except.error, a returned None by
  Except.ok none.
-/

/-- Python str.lower, per character, restricted to ASCII letters
(sufficient for every string the program manipulates). -/
def pyLowerChar : Char → Char
  | 'A' => 'a' | 'B' => 'b' | 'C' => 'c' | 'D' => 'd' | 'E' => 'e'
  | 'F' => 'f' | 'G' => 'g' | 'H' => 'h' | 'I' => 'i' | 'J' => 'j'
  | 'K' => 'k' | 'L' => 'l' | 'M' => 'm' | 'N' => 'n' | 'O' => 'o'
  | 'P' => 'p' | 'Q' => 'q' | 'R' => 'r' | 'S' => 's' | 'T' => 't'
  | 'U' => 'u' | 'V' => 'v' | 'W' => 'w' | 'X' => 'x' | 'Y' => 'y'
  | 'Z' => 'z'
  | c => c

/-- Python str.lower on a whole string. -/
def pyLower (s : String) : String := String.mk (s.data.map pyLowerChar)

/-- The characters stripped by Python str.strip() and matched by the
regex class \s (space, tab, newline, carriage return, vertical tab,
form feed). -/
def isPySpace (c : Char) : Bool :=
  c == ' ' || c == '\t' || c == '\n' || c == '\r' || c == '\x0b' || c == '\x0c'

/-- Python str.strip(): remove leading and trailing whitespace. -/
def pyStrip (s : String) : String :=
  String.mk (((s.data.dropWhile isPySpace).reverse.dropWhile isPySpace).reverse)

/-- Whether the first list is a prefix of the second (used to model the
Python substring test). -/
def isPrefixList : List Char → List Char → Bool
  | [], _ => true
  | _ :: _, [] => false
  | a :: as, b :: bs => a == b && isPrefixList as bs

/-- Whether the first list occurs as a contiguous substring of the
second; models the Python expression needle in haystack on strings. -/
def containsSub : List Char → List Char → Bool
  | needle, [] => isPrefixList needle []
  | needle, c :: rest => isPrefixList needle (c :: rest) || containsSub needle rest

/-- Numeric value of a list of ASCII digits, as Python int() on the
matched group. -/
def digitsVal (ds : List Char) : Nat := ds.foldl (fun n c => 10 * n + (c.toNat - 48)) 0

/-- One attempt of the regex (\d{1,3})\s*ans at the head of the list
(api.py line 52).  Returns the value of the digit group and the total
number of characters consumed by the match.  The maximal digit run at
the position must have length 1 to 3: if it is longer, every greedy or
backtracked choice of digits leaves a digit in front of the literal
ans, so the position cannot match. -/
def matchAgeAt (l : List Char) : Option (Nat × Nat) :=
  let ds := l.takeWhile Char.isDigit
  if ds.length = 0 || 3 < ds.length then none
  else
    let afterDigits := l.drop ds.length
    let sp := afterDigits.takeWhile isPySpace
    match afterDigits.drop sp.length with
    | 'a' :: 'n' :: 's' :: _ => some (digitsVal ds, ds.length + sp.length + 3)
    | _ => none

/-- Left-to-right non-overlapping scan for the age pattern, as
re.findall.  The fuel argument starts at the length of the list; every
step consumes at least one character (a successful match consumes at
least four), so the fuel never runs out before the list is exhausted. -/
def findAgesGo : Nat → List Char → List Nat
  | 0, _ => []
  | _, [] => []
  | fuel + 1, c :: rest =>
    match matchAgeAt (c :: rest) with
    | some (v, n) => v :: findAgesGo fuel (rest.drop (n - 1))
    | none => findAgesGo fuel rest

/-- All matches of (\d{1,3})\s*ans, in order. -/
def findAges (l : List Char) : List Nat := findAgesGo l.length l

/-- api.py lines 51-57: find the age patterns, keep the values strictly
between 0 and 120, return the first or None. -/
def detect_age (text : String) : Option Nat :=
  let ms := findAges text.data
  (ms.filter (fun x => decide (0 < x) && decide (x < 120))).head?

/-- One attempt of the regex (19[0-9]{2}|20[0-2][0-9]) at the head of
the list (api.py line 39).  Both alternatives consume exactly four
characters and cannot start at the same position. -/
def yearAt : List Char → Option Int
  | '1' :: '9' :: a :: b :: _ =>
    if a.isDigit && b.isDigit then
      some (1900 + 10 * ((a.toNat : Int) - 48) + ((b.toNat : Int) - 48))
    else none
  | '2' :: '0' :: a :: b :: _ =>
    if (decide ('0' ≤ a) && decide (a ≤ '2')) && b.isDigit then
      some (2000 + 10 * ((a.toNat : Int) - 48) + ((b.toNat : Int) - 48))
    else none
  | _ => none

/-- Left-to-right non-overlapping scan for the year pattern, as
re.findall.  A successful match consumes four characters. -/
def findYearsGo : Nat → List Char → List Int
  | 0, _ => []
  | _, [] => []
  | fuel + 1, c :: rest =>
    match yearAt (c :: rest) with
    | some y => y :: findYearsGo fuel (rest.drop 3)
    | none => findYearsGo fuel rest

/-- All matches of (19[0-9]{2}|20[0-2][0-9]), in order. -/
def findYears (l : List Char) : List Int := findYearsGo l.length l

/-- api.py lines 38-48: return the first matched year y with
1900 <= y <= current year, else None.  cy is datetime.now().year. -/
def detect_birth_year (cy : Int) (text : String) : Option Int :=
  let ms := findYears text.data
  ms.find? (fun y => decide (1900 ≤ y) && decide (y ≤ cy))

/-- api.py lines 60-75: lower-case the text, prefer the directly stated
age, otherwise derive an age from a detected birth year when the
difference is strictly between 0 and 120, otherwise None. -/
def estimate_age (cy : Int) (text : String) : Option Int :=
  let t := pyLower text
  let age_direct := detect_age t
  let birth_year := detect_birth_year cy t
  match age_direct with
  | some a => some (a : Int)
  | none =>
    match birth_year with
    | some y => if 0 < cy - y ∧ cy - y < 120 then some (cy - y) else none
    | none => none

/-- The containment test of the location loop (api.py line 81):
loc.lower() in text.lower(). -/
def locContains (text loc : String) : Bool :=
  containsSub (pyLower loc).data (pyLower text).data

/-- api.py lines 83-91: the hardcoded keyword fallback of
detect_location; t is the already lower-cased text. -/
def fallbackLocation (t : String) : String :=
  if containsSub "france".data t.data then "France"
  else if containsSub "italie".data t.data || containsSub "italy".data t.data then "Italy"
  else if containsSub "espagne".data t.data || containsSub "spain".data t.data then "Spain"
  else if containsSub "allemagne".data t.data || containsSub "germany".data t.data then "Germany"
  else "Global"

/-- api.py lines 78-91: first known location whose lower-cased name is
contained in the lower-cased text, else the keyword fallback.  locs is
the module-level AVAILABLE_LOCATIONS. -/
def detect_location (locs : List String) (text : String) : String :=
  match locs.find? (locContains text) with
  | some loc => loc
  | none => fallbackLocation (pyLower text)

/-- One row of the dataset.  The three columns the code filters on are
typed fields; get models float(row[col]) for the remaining columns. -/
structure Row where
  location_name : String
  year_id : Int
  scenario_name : String
  get : String → ℚ

/-- The in-memory pandas dataframe: column names (after the strip
normalisation of api.py line 21) and rows. -/
structure DataFrame where
  cols : List String
  rows : List Row

/-- pandas Series.unique: first occurrences, in order.  The first
argument accumulates the values already seen. -/
def uniqueValsGo : List String → List String → List String
  | _, [] => []
  | seen, x :: xs =>
    if seen.contains x then uniqueValsGo seen xs
    else x :: uniqueValsGo (x :: seen) xs

/-- pandas unique on a list of values. -/
def uniqueVals (l : List String) : List String := uniqueValsGo [] l

/-- api.py line 24: AVAILABLE_LOCATIONS. -/
def availableLocations (df : DataFrame) : List String :=
  uniqueVals (df.rows.map Row.location_name)

/-- api.py lines 23-25: DEFAULT_YEAR = 2023 if present among the year
values, else their maximum (0 only for an empty dataset, on which the
Python process would already have failed at startup). -/
def defaultYear (df : DataFrame) : Int :=
  let years := df.rows.map Row.year_id
  if years.contains 2023 then 2023 else (years.max?).getD 0

/-- api.py line 119: col.lower().replace(" ", "").replace("_", ""). -/
def normCol (c : String) : String :=
  String.mk ((pyLower c).data.filter (fun ch => !(ch == ' ' || ch == '_')))

/-- api.py line 120: the normalised column name contains both
expectancy and year. -/
def isYearsCol (c : String) : Bool :=
  containsSub "expectancy".data (normCol c).data && containsSub "year".data (normCol c).data

/-- api.py line 122: the normalised column name contains both
expectancy and week. -/
def isWeeksCol (c : String) : Bool :=
  containsSub "expectancy".data (normCol c).data && containsSub "week".data (normCol c).data

/-- api.py lines 115-123: the column scan.  Starting from (None, None),
every matching column overwrites the previous value of its component,
exactly as the two independent assignments of the loop body. -/
def findCols (cols : List String) : Option String × Option String :=
  cols.foldl (fun acc col =>
    (if isYearsCol col then some col else acc.1,
     if isWeeksCol col then some col else acc.2)) (none, none)

/-- The row filter of api.py line 101: case-insensitive exact match of
location_name. -/
def locMatches (location : String) (r : Row) : Bool :=
  pyLower r.location_name == pyLower location

/-- The row filter of api.py lines 105-108: exact year and scenario
"Reference". -/
def yearRefMatches (y : Int) (r : Row) : Bool :=
  (r.year_id == y) && (r.scenario_name == "Reference")

/-- The KeyError message of api.py lines 126-128 (without the dynamic
column listing). -/
def colsErrMsg : String := "Colonnes esperance de vie introuvables."

/-- api.py lines 97-133.  None for the year argument selects
DEFAULT_YEAR.  Except.error models the raised KeyError, Except.ok none
the returned None. -/
def get_life_expectancy (df : DataFrame) (location : String) (year : Option Int) :
    Except String (Option (ℚ × ℚ)) :=
  let y := year.getD (defaultYear df)
  let tmp := df.rows.filter (locMatches location)
  if tmp.isEmpty then .ok none
  else
    match tmp.filter (yearRefMatches y) with
    | [] => .ok none
    | row :: _ =>
      match findCols df.cols with
      | (some years_col, some weeks_col) => .ok (some (row.get years_col, row.get weeks_col))
      | _ => .error colsErrMsg

/-- api.py lines 136-139. -/
def compute_remaining_life (expectancy_years age : ℚ) : ℚ × ℚ :=
  let remaining_years := max (expectancy_years - age) 0
  let remaining_weeks := remaining_years * 52
  (remaining_years, remaining_weeks)

/-- Python int() applied to a float value: truncation toward zero. -/
def intTrunc (q : ℚ) : ℤ := if q < 0 then ⌈q⌉ else ⌊q⌋

/-- The result dictionary built by the predict branch (api.py lines
199-213).  The two weeks fields go through int() in the source, hence
their integer type. -/
structure ResultObj where
  location : String
  year : Int
  life_expectancy_years : ℚ
  life_expectancy_weeks : ℤ
  age : Option Int
  remaining_years : Option ℚ
  remaining_weeks : Option ℤ
deriving DecidableEq

/-- What the predict branch hands to the template: an optional result
and an optional warning. -/
structure PredictOutcome where
  result : Option ResultObj
  warning : Option String
deriving DecidableEq

/-- The warning of api.py line 189. -/
def predictWarnEmpty : String := "Veuillez écrire ou générer un texte."

/-- The predict branch of index (api.py lines 187-213).  cy is
datetime.now().year, df the module-level dataset.  A raised KeyError
from the resolver propagates as Except.error (the request crashes). -/
def handle_predict (df : DataFrame) (cy : Int) (input_text : String) :
    Except String PredictOutcome :=
  if pyStrip input_text = "" then .ok ⟨none, some predictWarnEmpty⟩
  else
    let location := detect_location (availableLocations df) input_text
    let age := estimate_age cy input_text
    match get_life_expectancy df location none with
    | .error e => .error e
    | .ok none => .ok ⟨none, some ("Aucune donnée trouvée pour " ++ location ++ ".")⟩
    | .ok (some (years, weeks)) =>
      match age with
      | some a =>
        .ok ⟨some {
          location := location
          year := defaultYear df
          life_expectancy_years := years
          life_expectancy_weeks := intTrunc weeks
          age := some a
          remaining_years := some (compute_remaining_life years (a : ℚ)).1
          remaining_weeks := some (intTrunc (compute_remaining_life years (a : ℚ)).2) }, none⟩
      | none =>
        .ok ⟨some {
          location := location
          year := defaultYear df
          life_expectancy_years := years
          life_expectancy_weeks := intTrunc weeks
          age := none
          remaining_years := none
          remaining_weeks := none }, none⟩

/-! Concrete datasets used to instantiate the theorems.  They follow the
shape of the real semicolon-delimited file: location_name, year_id,
scenario_name plus the two expectancy columns (dfC10 has two of each to
exhibit the duplicate-column behaviour, dfC6 none to exhibit the
missing-column behaviour). -/

/-- A dataset with a single Reference row for France in 2023. -/
def dfC1 : DataFrame where
  cols := ["location_name", "year_id", "scenario_name",
    "Life expectancy_years", "Life expectancy_weeks"]
  rows := [{
    location_name := "France"
    year_id := 2023
    scenario_name := "Reference"
    get := fun c => if c == "Life expectancy_years" then 165/2
      else if c == "Life expectancy_weeks" then 4290 else 0 }]

/-- A dataset with no rows and without expectancy columns. -/
def dfC6 : DataFrame where
  cols := ["location_name", "year_id", "scenario_name"]
  rows := []

/-- A dataset without expectancy columns but with a matching Reference
row for France in 2023. -/
def dfC6b : DataFrame where
  cols := ["location_name", "year_id", "scenario_name"]
  rows := [{
    location_name := "France"
    year_id := 2023
    scenario_name := "Reference"
    get := fun _ => 0 }]

/-- A dataset with a France 2023 Reference row whose weeks expectancy
is not an integer (4290.5 = 8581/2). -/
def dfC8 : DataFrame where
  cols := ["location_name", "year_id", "scenario_name",
    "Life expectancy_years", "Life expectancy_weeks"]
  rows := [{
    location_name := "France"
    year_id := 2023
    scenario_name := "Reference"
    get := fun c => if c == "Life expectancy_years" then 165/2
      else if c == "Life expectancy_weeks" then 8581/2 else 0 }]

/-- A dataset with two years-expectancy columns and two weeks-expectancy
columns holding different values, to exhibit which one the scan keeps. -/
def dfC10 : DataFrame where
  cols := ["location_name", "year_id", "scenario_name",
    "expectancy_year_a", "expectancy_year_b", "expectancy_week_a", "expectancy_week_b"]
  rows := [{
    location_name := "France"
    year_id := 2023
    scenario_name := "Reference"
    get := fun c => if c == "expectancy_year_a" then 70
      else if c == "expectancy_year_b" then 80
      else if c == "expectancy_week_a" then 3640
      else if c == "expectancy_week_b" then 4160 else 0 }]

/-! Helper lemmas. -/

theorem pyLowerChar_idem (c : Char) : pyLowerChar (pyLowerChar c) = pyLowerChar c := by
  by_cases hc : c ∈ (['A', 'B', 'C', 'D', 'E', 'F', 'G', 'H', 'I', 'J', 'K', 'L', 'M',
      'N', 'O', 'P', 'Q', 'R', 'S', 'T', 'U', 'V', 'W', 'X', 'Y', 'Z'] : List Char)
  · fin_cases hc <;> decide
  · simp only [List.mem_cons, List.not_mem_nil, or_false, not_or] at hc
    have h : pyLowerChar c = c := by
      unfold pyLowerChar
      split
      all_goals first | rfl | (exfalso; tauto)
    rw [h, h]

theorem pyLower_idem (s : String) : pyLower (pyLower s) = pyLower s := by
  unfold pyLower
  simp only [List.map_map]
  congr 1
  exact List.map_congr_left fun a _ => pyLowerChar_idem a

theorem find_first_of_append {α : Type} (p : α → Bool) (l1 : List α) (y : α) (l2 : List α)
    (h1 : ∀ z ∈ l1, p z = false) (h2 : p y = true) :
    (l1 ++ y :: l2).find? p = some y := by
  induction l1 with
  | nil => simp [List.find?_cons, h2]
  | cons a as ih =>
    have ha : p a = false := h1 a (List.mem_cons_self a as)
    simp only [List.cons_append, List.find?_cons, ha]
    exact ih fun z hz => h1 z (List.mem_cons_of_mem a hz)

theorem dropWhile_eq_nil_of_all {α : Type} (p : α → Bool) (l : List α)
    (h : ∀ x ∈ l, p x = true) : l.dropWhile p = [] :=
  List.dropWhile_eq_nil_iff.mpr h

theorem pyStrip_eq_empty_of_space (s : String) (h : ∀ c ∈ s.data, isPySpace c = true) :
    pyStrip s = "" := by
  unfold pyStrip
  rw [dropWhile_eq_nil_of_all _ _ h]
  rfl

theorem isPrefixList_iff (n : List Char) : ∀ h : List Char,
    (isPrefixList n h = true ↔ ∃ t, h = n ++ t) := by
  induction n with
  | nil =>
    intro h
    simp [isPrefixList]
  | cons a as ih =>
    intro h
    cases h with
    | nil =>
      simp [isPrefixList]
    | cons b bs =>
      simp only [isPrefixList, Bool.and_eq_true, beq_iff_eq, ih bs, List.cons_append,
        List.cons.injEq]
      constructor
      · rintro ⟨hab, t, ht⟩
        exact ⟨t, hab.symm, ht⟩
      · rintro ⟨t, hab, ht⟩
        exact ⟨hab.symm, t, ht⟩

theorem containsSub_iff (n : List Char) : ∀ h : List Char,
    (containsSub n h = true ↔ ∃ p q, h = p ++ n ++ q) := by
  intro h
  induction h with
  | nil =>
    simp only [containsSub, isPrefixList_iff]
    constructor
    · rintro ⟨t, ht⟩
      exact ⟨[], t, ht⟩
    · rintro ⟨p, q, hpq⟩
      have h0 := List.append_eq_nil.mp hpq.symm
      have h1 := List.append_eq_nil.mp h0.1
      refine ⟨q, ?_⟩
      rw [h1.2, h0.2]
      simp
  | cons c rest ih =>
    simp only [containsSub, Bool.or_eq_true, isPrefixList_iff, ih]
    constructor
    · rintro (⟨t, ht⟩ | ⟨p, q, hpq⟩)
      · exact ⟨[], t, by simp [ht]⟩
      · exact ⟨c :: p, q, by simp [hpq]⟩
    · rintro ⟨p, q, hpq⟩
      cases p with
      | nil => exact Or.inl ⟨q, by simpa using hpq⟩
      | cons x xs =>
        right
        simp only [List.cons_append] at hpq
        injection hpq with h1 h2
        exact ⟨xs, q, h2⟩

theorem getLast?_cons_or {α : Type} (c : α) (xs : List α) :
    (c :: xs).getLast? = xs.getLast?.or (some c) := by
  induction xs generalizing c with
  | nil => rfl
  | cons x xs ih =>
    rw [List.getLast?_cons_cons, ih x]
    cases xs.getLast? <;> rfl

theorem foldl_pick (p : String → Bool) (l : List String) : ∀ init : Option String,
    l.foldl (fun acc c => if p c then some c else acc) init
      = ((l.filter p).getLast?).or init := by
  induction l with
  | nil => intro init; rfl
  | cons c cs ih =>
    intro init
    rw [List.foldl_cons, ih, List.filter_cons]
    by_cases hp : p c
    · simp only [hp, if_true, getLast?_cons_or]
      cases (cs.filter p).getLast? <;> rfl
    · simp [hp]

theorem findCols_split (cols : List String) : ∀ a b : Option String,
    cols.foldl (fun acc col =>
        (if isYearsCol col then some col else acc.1,
         if isWeeksCol col then some col else acc.2)) (a, b)
      = (cols.foldl (fun acc col => if isYearsCol col then some col else acc) a,
         cols.foldl (fun acc col => if isWeeksCol col then some col else acc) b) := by
  induction cols with
  | nil => intro a b; rfl
  | cons c cs ih =>
    intro a b
    rw [List.foldl_cons, List.foldl_cons, List.foldl_cons, ih]

theorem findCols_fst (cols : List String) :
    (findCols cols).1 = (cols.filter isYearsCol).getLast? := by
  rw [findCols, findCols_split]
  show cols.foldl (fun acc col => if isYearsCol col then some col else acc) none
      = (cols.filter isYearsCol).getLast?
  rw [foldl_pick]
  cases (cols.filter isYearsCol).getLast? <;> rfl

theorem findCols_snd (cols : List String) :
    (findCols cols).2 = (cols.filter isWeeksCol).getLast? := by
  rw [findCols, findCols_split]
  show cols.foldl (fun acc col => if isWeeksCol col then some col else acc) none
      = (cols.filter isWeeksCol).getLast?
  rw [foldl_pick]
  cases (cols.filter isWeeksCol).getLast? <;> rfl

/-! Claim theorems. -/

/-- C5: for every expectancy e and age a, compute_remaining_life e a is
(max (e - a) 0, max (e - a) 0 * 52); it is a total function, and
compute_remaining_life 80 30 = (50, 2600). -/
theorem compute_remaining_life_spec (e a : ℚ) :
    compute_remaining_life e a = (max (e - a) 0, max (e - a) 0 * 52)
    ∧ compute_remaining_life 80 30 = (50, 2600) := by
  refine ⟨rfl, ?_⟩
  simp only [compute_remaining_life, Prod.mk.injEq]
  norm_num

/-- C9: estimate_age is case-insensitive: it agrees with itself on the
lower-cased text, because it lower-cases before delegating; an
upper-case "30 ANS" yields 30 through estimate_age although detect_age
on the uncased text finds nothing (the regex only matches the
lower-case word ans). -/
theorem estimate_age_case_insensitive (cy : Int) (text : String) :
    estimate_age cy text = estimate_age cy (pyLower text)
    ∧ estimate_age cy "30 ANS" = some 30
    ∧ detect_age "30 ANS" = none := by
  refine ⟨?_, ?_, by decide⟩
  · simp only [estimate_age]
    rw [pyLower_idem]
  · have h : detect_age (pyLower "30 ANS") = some 30 := by decide
    simp only [estimate_age]
    rw [h]
    rfl

/-- C2 (amended): estimate_age lower-cases the text and returns the
value found by detect_age whenever there is one; detect_age returns the
first non-overlapping match of 1-3 digits, optional whitespace and
"ans" whose value is strictly between 0 and 120 (mere substring
containment of "Xans" with 0 < X < 120 is not sufficient when the
digits sit inside a longer digit run).  Otherwise, when a birth year y
is detected, estimate_age returns cy - y exactly when that difference
is strictly between 0 and 120, and otherwise absent. -/
theorem estimate_age_prefers_direct_age (cy : Int) (text : String) :
    (∀ a : Nat, detect_age (pyLower text) = some a → estimate_age cy text = some (a : Int))
    ∧ (detect_age (pyLower text) = none →
        ∀ y : Int, detect_birth_year cy (pyLower text) = some y →
          estimate_age cy text = if 0 < cy - y ∧ cy - y < 120 then some (cy - y) else none)
    ∧ (detect_age (pyLower text) = none → detect_birth_year cy (pyLower text) = none →
        estimate_age cy text = none) := by
  refine ⟨?_, ?_, ?_⟩
  · intro a ha
    simp only [estimate_age]
    rw [ha]
  · intro h0 y hy
    simp only [estimate_age]
    rw [h0, hy]
  · intro h0 h1
    simp only [estimate_age]
    rw [h0, h1]

theorem estimate_age_prefers_direct_age_witness :
    estimate_age 2025 "ne en 1990" = some 35 ∧ estimate_age 2025 "40 ans" = some 40 := by
  constructor
  · have h := (estimate_age_prefers_direct_age 2025 "ne en 1990").2.1 (by decide) 1990 (by decide)
    rw [h]
    decide
  · exact (estimate_age_prefers_direct_age 2025 "40 ans").1 40 (by decide)

/-- C2, counterexample to the claim as stated: the text "150ans"
contains the substring "50ans" with 0 < 50 < 120, yet estimate_age
returns absent (the maximal digit run 150 is the only regex match and
is filtered out), so the claimed universal "for all text containing
Xans with 0 < X < 120, X is returned" fails. -/
theorem estimate_age_direct_age_cx :
    containsSub "50ans".data "150ans".data = true
    ∧ (0 < 50 ∧ 50 < 120)
    ∧ estimate_age 2025 "150ans" = none
    ∧ detect_age "150ans" = none := by decide

/-- C3 (amended): detect_birth_year returns the first 1900-2029 pattern
match y with 1900 <= y <= current year (a non-negative age and a lower
bound of 1900); the "age at most 120" filter of the claim is not
applied at this stage.  It returns absent when no match is in range. -/
theorem detect_birth_year_first_valid (cy : Int) (text : String) :
    (∀ l1 : List Int, ∀ y : Int, ∀ l2 : List Int, findYears text.data = l1 ++ y :: l2 →
        (∀ z ∈ l1, ¬(1900 ≤ z ∧ z ≤ cy)) → 1900 ≤ y → y ≤ cy →
        detect_birth_year cy text = some y)
    ∧ ((∀ z ∈ findYears text.data, ¬(1900 ≤ z ∧ z ≤ cy)) →
        detect_birth_year cy text = none) := by
  constructor
  · intro l1 y l2 hsplit hl1 hy1 hy2
    simp only [detect_birth_year]
    rw [hsplit]
    apply find_first_of_append
    · intro z hz
      rcases not_and_or.mp (hl1 z hz) with h | h <;> simp [h]
    · simp [hy1, hy2]
  · intro hall
    simp only [detect_birth_year]
    apply List.find?_eq_none.mpr
    intro z hz
    simp only [Bool.and_eq_true, decide_eq_true_eq]
    exact hall z hz

theorem detect_birth_year_first_valid_witness :
    detect_birth_year 2025 "2028 1990" = some 1990
    ∧ detect_birth_year 2025 "2026" = none := by
  constructor
  · exact (detect_birth_year_first_valid 2025 "2028 1990").1 [2028] 1990 []
      (by decide) (by decide) (by decide) (by decide)
  · exact (detect_birth_year_first_valid 2025 "2026").2 (by decide)

/-- C3, counterexample to the claim as stated: with current year 2026,
the first match of "1903 1950" is 1903, which the code returns although
it yields the age 123 > 120; the later candidate 1950 satisfies the
claimed non-negative-and-at-most-120 filter and is not returned. -/
theorem detect_birth_year_first_valid_cx :
    detect_birth_year 2026 "1903 1950" = some 1903
    ∧ (2026 - 1903 : Int) = 123
    ∧ ¬((2026 - 1903 : Int) ≤ 120)
    ∧ 1950 ∈ findYears "1903 1950".data
    ∧ (0 : Int) ≤ 2026 - 1950 ∧ (2026 - 1950 : Int) ≤ 120 := by decide

/-- C4: detect_location returns the first known location (in dataset
iteration order) whose lower-cased name is a substring of the
lower-cased text; when none is contained it returns the hardcoded
fallback (France, Italy, Spain, Germany keywords checked in that order,
else "Global"), which always lies in that five-element set; containment
is genuine substring occurrence.  The function is total (type String),
so it never returns absent. -/
theorem detect_location_first_match (locs : List String) (text : String) :
    (∀ l1 : List String, ∀ loc : String, ∀ l2 : List String, locs = l1 ++ loc :: l2 →
        (∀ l ∈ l1, locContains text l = false) → locContains text loc = true →
        detect_location locs text = loc)
    ∧ ((∀ l ∈ locs, locContains text l = false) →
        detect_location locs text = fallbackLocation (pyLower text))
    ∧ fallbackLocation (pyLower text) ∈ (["France", "Italy", "Spain", "Germany", "Global"] : List String)
    ∧ (∀ loc : String, locContains text loc = true ↔
        ∃ p q, (pyLower text).data = p ++ (pyLower loc).data ++ q) := by
  refine ⟨?_, ?_, ?_, ?_⟩
  · intro l1 loc l2 hsplit hl1 hloc
    simp only [detect_location]
    rw [hsplit, find_first_of_append (locContains text) l1 loc l2 hl1 hloc]
  · intro hall
    simp only [detect_location]
    rw [List.find?_eq_none.mpr (fun x hx => by simp [hall x hx])]
  · unfold fallbackLocation
    split_ifs <;> simp
  · intro loc
    exact containsSub_iff _ _

theorem detect_location_first_match_witness :
    detect_location ["United States of America", "France"] "living in france" = "France"
    ∧ detect_location ["Japan"] "living in france" = fallbackLocation (pyLower "living in france") := by
  constructor
  · exact (detect_location_first_match ["United States of America", "France"] "living in france").1
      ["United States of America"] "France" [] rfl (by decide) (by decide)
  · exact (detect_location_first_match ["Japan"] "living in france").2.1 (by decide)

theorem ge_of_sub_nil (df : DataFrame) (loc : String) (y : Int)
    (h : (df.rows.filter (locMatches loc)).filter (yearRefMatches y) = []) :
    get_life_expectancy df loc (some y) = .ok none := by
  simp only [get_life_expectancy, Option.getD_some]
  cases htmp : df.rows.filter (locMatches loc) with
  | nil => simp
  | cons r rs =>
    rw [htmp] at h
    simp only [List.isEmpty_cons, if_false, Bool.false_eq_true, h]

theorem ge_of_sub_cons (df : DataFrame) (loc : String) (y : Int) (r : Row) (rs : List Row)
    (h : (df.rows.filter (locMatches loc)).filter (yearRefMatches y) = r :: rs) :
    get_life_expectancy df loc (some y) =
      (match findCols df.cols with
        | (some years_col, some weeks_col) => .ok (some (r.get years_col, r.get weeks_col))
        | _ => .error colsErrMsg) := by
  simp only [get_life_expectancy, Option.getD_some]
  cases htmp : df.rows.filter (locMatches loc) with
  | nil =>
    rw [htmp] at h
    simp at h
  | cons r0 rs0 =>
    rw [htmp] at h
    simp only [List.isEmpty_cons, if_false, Bool.false_eq_true, h]

/-- C1: with the two expectancy columns identified, get_life_expectancy
filters the rows by case-insensitive exact location match, then by
exact year and scenario "Reference", and returns the pair read from the
first remaining row, or absent when no row survives either filter. -/
theorem get_life_expectancy_filters_rows (df : DataFrame) (loc : String) (y : Int)
    (yc wc : String)
    (hy : (findCols df.cols).1 = some yc) (hw : (findCols df.cols).2 = some wc) :
    get_life_expectancy df loc (some y) =
      .ok ((((df.rows.filter (locMatches loc)).filter (yearRefMatches y)).head?).map
        (fun r => (r.get yc, r.get wc))) := by
  have hfc : findCols df.cols = (some yc, some wc) := by
    cases hfc0 : findCols df.cols with
    | mk o1 o2 =>
      rw [hfc0] at hy hw
      simp only at hy hw
      rw [hy, hw]
  cases hsub : (df.rows.filter (locMatches loc)).filter (yearRefMatches y) with
  | nil =>
    rw [ge_of_sub_nil df loc y hsub]
    simp
  | cons r rs =>
    rw [ge_of_sub_cons df loc y r rs hsub, hfc]
    simp

theorem get_life_expectancy_filters_rows_witness :
    get_life_expectancy dfC1 "France" (some 2023) = .ok (some (165/2, 4290)) := by
  have h := get_life_expectancy_filters_rows dfC1 "France" 2023
    "Life expectancy_years" "Life expectancy_weeks" (by decide) (by decide)
  rw [h]
  rfl

/-- C6 (amended): get_life_expectancy raises the column lookup error
exactly when a row survives both filters and either expectancy column
cannot be identified; when no row survives the filters it returns
absent, even on a dataset whose columns cannot be identified (the row
check comes first). -/
theorem get_life_expectancy_row_before_cols (df : DataFrame) (loc : String) (y : Int) :
    ((df.rows.filter (locMatches loc)).filter (yearRefMatches y) ≠ [] →
      ((findCols df.cols).1 = none ∨ (findCols df.cols).2 = none) →
      get_life_expectancy df loc (some y) = .error colsErrMsg)
    ∧ ((df.rows.filter (locMatches loc)).filter (yearRefMatches y) = [] →
      get_life_expectancy df loc (some y) = .ok none) := by
  constructor
  · intro hne hcols
    cases hsub : (df.rows.filter (locMatches loc)).filter (yearRefMatches y) with
    | nil => exact absurd hsub hne
    | cons r rs =>
      rw [ge_of_sub_cons df loc y r rs hsub]
      cases hfc : findCols df.cols with
      | mk o1 o2 =>
        rw [hfc] at hcols
        simp only at hcols
        rcases hcols with h | h
        · subst h
          rfl
        · subst h
          cases o1 <;> rfl
  · intro hsub
    exact ge_of_sub_nil df loc y hsub

theorem get_life_expectancy_row_before_cols_witness :
    get_life_expectancy dfC6b "France" (some 2023) = .error colsErrMsg
    ∧ get_life_expectancy dfC1 "Spain" (some 2023) = .ok none := by
  constructor
  · exact (get_life_expectancy_row_before_cols dfC6b "France" 2023).1
      (List.length_pos.mp (by decide)) (by decide)
  · exact (get_life_expectancy_row_before_cols dfC1 "Spain" 2023).2 rfl

/-- C6, counterexample to the claim as stated: on a dataset without
identifiable expectancy columns but also without a matching row, the
function returns absent instead of failing with the lookup error. -/
theorem get_life_expectancy_row_before_cols_cx :
    get_life_expectancy dfC6 "France" (some 2023) = .ok none
    ∧ findCols dfC6.cols = (none, none)
    ∧ get_life_expectancy dfC6 "France" (some 2023) ≠ .error colsErrMsg := by
  refine ⟨rfl, by decide, ?_⟩
  intro h
  rw [(rfl : get_life_expectancy dfC6 "France" (some 2023) = .ok none)] at h
  exact Except.noConfusion h

/-- C10: when several column names normalise to the years (resp. weeks)
pattern, get_life_expectancy reads the value of the selected row at the
last matching column in column order, because each later match
overwrites the earlier one during the scan. -/
theorem get_life_expectancy_last_matching_col (df : DataFrame) (loc : String) (y : Int)
    (r : Row) (rs : List Row) (yc wc : String)
    (hsel : (df.rows.filter (locMatches loc)).filter (yearRefMatches y) = r :: rs)
    (hy : (df.cols.filter isYearsCol).getLast? = some yc)
    (hw : (df.cols.filter isWeeksCol).getLast? = some wc) :
    get_life_expectancy df loc (some y) = .ok (some (r.get yc, r.get wc)) := by
  have h1 : (findCols df.cols).1 = some yc := by rw [findCols_fst]; exact hy
  have h2 : (findCols df.cols).2 = some wc := by rw [findCols_snd]; exact hw
  have hfc : findCols df.cols = (some yc, some wc) := by
    cases hfc0 : findCols df.cols with
    | mk o1 o2 =>
      rw [hfc0] at h1 h2
      simp only at h1 h2
      rw [h1, h2]
  rw [ge_of_sub_cons df loc y r rs hsel, hfc]

theorem get_life_expectancy_last_matching_col_witness :
    get_life_expectancy dfC10 "France" (some 2023) = .ok (some (80, 4160)) := by
  have h := get_life_expectancy_last_matching_col dfC10 "France" 2023
    (dfC10.rows.head (List.length_pos.mp (by decide))) [] "expectancy_year_b" "expectancy_week_b"
    rfl (by decide) (by decide)
  rw [h]
  rfl

/-- C7: a predict request whose text is empty or consists only of
whitespace produces the warning and no result; the outcome does not
depend on the dataset or the current year, so none of the
analyzer/resolver/calculator pipeline contributes to it. -/
theorem handle_predict_blank_text (df : DataFrame) (cy : Int) (text : String)
    (h : ∀ c ∈ text.data, isPySpace c = true) :
    handle_predict df cy text = .ok ⟨none, some predictWarnEmpty⟩ := by
  have hs : pyStrip text = "" := pyStrip_eq_empty_of_space text h
  simp only [handle_predict]
  rw [if_pos hs]

theorem handle_predict_blank_text_witness :
    handle_predict ⟨[], []⟩ 2025 " " = .ok ⟨none, some predictWarnEmpty⟩ :=
  handle_predict_blank_text ⟨[], []⟩ 2025 " " (by decide)

/-- C8 (amended): in every result of a successful predict request, the
years-based expectancy and remaining-years fields carry the resolver
and calculator floats unchanged, but both weeks fields pass through
int() and are truncated to integers; the remaining fields are absent
when the age is unknown. -/
theorem handle_predict_result_fields (df : DataFrame) (cy : Int) (text : String) (yrs wks : ℚ)
    (hne : ¬ pyStrip text = "")
    (hlife : get_life_expectancy df (detect_location (availableLocations df) text) none
      = .ok (some (yrs, wks))) :
    handle_predict df cy text = .ok ⟨some {
      location := detect_location (availableLocations df) text
      year := defaultYear df
      life_expectancy_years := yrs
      life_expectancy_weeks := intTrunc wks
      age := estimate_age cy text
      remaining_years := (estimate_age cy text).map
        (fun a => (compute_remaining_life yrs (a : ℚ)).1)
      remaining_weeks := (estimate_age cy text).map
        (fun a => intTrunc (compute_remaining_life yrs (a : ℚ)).2) }, none⟩ := by
  simp only [handle_predict]
  rw [if_neg hne, hlife]
  cases hage : estimate_age cy text <;> simp [hage]

theorem handle_predict_result_fields_witness :
    handle_predict dfC8 2025 "France 30 ans" = .ok ⟨some {
      location := "France"
      year := 2023
      life_expectancy_years := 165/2
      life_expectancy_weeks := 4290
      age := some 30
      remaining_years := some (105/2)
      remaining_weeks := some 2730 }, none⟩ := by
  have hloc : detect_location (availableLocations dfC8) "France 30 ans" = "France" := by decide
  have hlife : get_life_expectancy dfC8
      (detect_location (availableLocations dfC8) "France 30 ans") none
      = .ok (some (165/2, 8581/2)) := by
    rw [hloc]
    rfl
  have h := handle_predict_result_fields dfC8 2025 "France 30 ans" (165/2) (8581/2)
    (by decide) hlife
  rw [h]
  have hage : estimate_age 2025 "France 30 ans" = some 30 := by decide
  have hyear : defaultYear dfC8 = 2023 := by decide
  simp only [hloc, hage, hyear, Option.map_some]
  simp only [PredictOutcome.mk.injEq, ResultObj.mk.injEq, Except.ok.injEq, Option.some.injEq,
    compute_remaining_life, intTrunc]
  norm_num

/-- C8, counterexample to the claim as stated: the resolver returns the
weeks expectancy 4290.5 = 8581/2, but the rendered result carries the
truncated integer 4290 in its weeks field, so the weeks value is not
carried through unmodified as a float. -/
theorem handle_predict_result_fields_cx :
    get_life_expectancy dfC8 "France" none = .ok (some (165/2, 8581/2))
    ∧ handle_predict dfC8 2025 "France 30 ans" = .ok ⟨some {
        location := "France"
        year := 2023
        life_expectancy_years := 165/2
        life_expectancy_weeks := 4290
        age := some 30
        remaining_years := some (105/2)
        remaining_weeks := some 2730 }, none⟩
    ∧ ((4290 : ℚ) ≠ 8581/2) := by
  refine ⟨rfl, ?_, by norm_num⟩
  have hloc : detect_location (availableLocations dfC8) "France 30 ans" = "France" := by decide
  have hage : estimate_age 2025 "France 30 ans" = some 30 := by decide
  have hyear : defaultYear dfC8 = 2023 := by decide
  have hlife : get_life_expectancy dfC8
      (detect_location (availableLocations dfC8) "France 30 ans") none
      = .ok (some (165/2, 8581/2)) := by
    rw [hloc]
    rfl
  simp only [handle_predict]
  rw [if_neg (by decide : ¬ pyStrip "France 30 ans" = ""), hlife, hage]
  simp only [hloc, hyear]
  simp only [PredictOutcome.mk.injEq, ResultObj.mk.injEq, Except.ok.injEq, Option.some.injEq,
    compute_remaining_life, intTrunc]
  norm_num
